import Mathlib

/-!
Verification of the NEO data-model and parsing core (`models.py`, `extract.py`).

Python floats are modelled by `PFloat` (NaN, infinities, finite rationals);
Python's built-in `float()` on strings is modelled by `pyFloatOfString`;
fallible Python code is modelled in `Except String`; Python dicts with
string keys are modelled as insertion-ordered association lists (`PyDict`).
-/

/-- Model of a Python float: NaN, signed infinity, or a finite value. -/
inductive PFloat where
  | nan : PFloat
  | inf : Bool → PFloat
  | val : ℚ → PFloat
deriving DecidableEq

/-- Digits of a list of decimal digit characters, most significant first. -/
def digitsVal (l : List Char) : Nat :=
  l.foldl (fun a c => 10 * a + (c.toNat - 48)) 0

/-- Unsigned decimal literal (optional single dot), as in Python float syntax:
`123`, `123.`, `.5`, `1.5`. Returns `none` when the characters do not form
such a literal. -/
def parseUnsigned (l : List Char) : Option ℚ :=
  let intPart := l.takeWhile (fun c => c ≠ '.')
  let rest := l.dropWhile (fun c => c ≠ '.')
  match rest with
  | [] =>
      if intPart ≠ [] ∧ intPart.all Char.isDigit then
        some ((digitsVal intPart : ℚ))
      else none
  | _ :: fracPart =>
      if (intPart ≠ [] ∨ fracPart ≠ []) ∧ intPart.all Char.isDigit ∧
          fracPart.all Char.isDigit then
        some ((digitsVal intPart : ℚ) +
          (digitsVal fracPart : ℚ) / ((10 : ℚ) ^ fracPart.length))
      else none

/-- ASCII whitespace, as stripped by Python's `float()`. -/
def isPySpace (c : Char) : Bool :=
  c = ' ' ∨ c = '\t' ∨ c = '\n' ∨ c = '\r'

/-- Strip leading and trailing whitespace from a character list. -/
def trimChars (l : List Char) : List Char :=
  ((l.dropWhile isPySpace).reverse.dropWhile isPySpace).reverse

/-- Case-insensitive match of a character list against an all-lowercase
ASCII pattern. -/
def matchLower : List Char → List Char → Bool
  | [], [] => true
  | a :: as, b :: bs =>
      (a = b ∨ a.toNat + 32 = b.toNat) ∧ matchLower as bs
  | _, _ => false

/-- Model of Python's built-in `float()` applied to a string: surrounding
whitespace is stripped, then an optional sign, then either the special
values `nan`, `inf`, `infinity` (case-insensitive) or an unsigned decimal
literal. Exponent notation and underscore digit separators are not modelled;
no claim exercises them. `none` models a raised `ValueError`. -/
def pyFloatOfString (s : String) : Option PFloat :=
  let t := trimChars s.data
  let signed : Bool × List Char :=
    match t with
    | '+' :: r => (false, r)
    | '-' :: r => (true, r)
    | r => (false, r)
  let neg := signed.1
  let body := signed.2
  if matchLower body ['n', 'a', 'n'] then some PFloat.nan
  else if matchLower body ['i', 'n', 'f'] ∨
      matchLower body ['i', 'n', 'f', 'i', 'n', 'i', 't', 'y'] then
    some (PFloat.inf neg)
  else
    match parseUnsigned body with
    | some q => some (PFloat.val (if neg then -q else q))
    | none => none

/-- A value that is either a raw string or already a float, as passed to the
constructors (`diameter: string|float`, `distance: string|float`). -/
inductive StrOrFloat where
  | s : String → StrOrFloat
  | f : PFloat → StrOrFloat
deriving DecidableEq

/-- Python `float(x)` on a string-or-float argument: a float is returned
unchanged; a string is parsed, raising `ValueError` when unparseable. -/
def pyfloat : StrOrFloat → Except String PFloat
  | StrOrFloat.f v => Except.ok v
  | StrOrFloat.s str =>
      match pyFloatOfString str with
      | some v => Except.ok v
      | none => Except.error "ValueError"

/-- A minute-resolution UTC datetime, as produced by the external
datetime parser. -/
structure PyDateTime where
  year : Nat
  month : Nat
  day : Nat
  hour : Nat
  minute : Nat
deriving DecidableEq

/-- Left-pad a string with zeros to the given width. -/
def padZeros (n : Nat) (s : String) : String :=
  if s.length < n then String.mk (List.replicate (n - s.length) '0') ++ s
  else s

/-- Modelled from the spec: `cd_to_datetime` lives in `helpers.py`, which is
not among the provided sources. The spec describes it as the external
collaborator `parse_datetime(string) -> DateTime` that "fails on malformed
input" and round-trips minute-resolution timestamps of the form used in the
end-to-end example (`1900-01-01 12:00`). We model it as a strict parser of
`YYYY-MM-DD HH:MM`; any other shape is a raised error. -/
def cd_to_datetime (s : String) : Except String PyDateTime :=
  match s.data with
  | [y1, y2, y3, y4, '-', m1, m2, '-', d1, d2, ' ', h1, h2, ':', n1, n2] =>
      if ([y1, y2, y3, y4, m1, m2, d1, d2, h1, h2, n1, n2]).all Char.isDigit then
        Except.ok
          ⟨digitsVal [y1, y2, y3, y4], digitsVal [m1, m2], digitsVal [d1, d2],
            digitsVal [h1, h2], digitsVal [n1, n2]⟩
      else Except.error "ValueError"
  | _ => Except.error "ValueError"

/-- Modelled from the spec: the inverse formatter
`format_datetime(DateTime) -> string`, "a minute-resolution, seconds-free
representation" that round-trips with the parser. -/
def datetime_to_str (t : PyDateTime) : String :=
  padZeros 4 (toString t.year) ++ "-" ++ padZeros 2 (toString t.month) ++ "-" ++
    padZeros 2 (toString t.day) ++ " " ++ padZeros 2 (toString t.hour) ++ ":" ++
    padZeros 2 (toString t.minute)

/-- A JSON-like value appearing in serialized mappings. -/
inductive JVal where
  | str : String → JVal
  | num : PFloat → JVal
  | bool : Bool → JVal
  | null : JVal
  | obj : List (String × JVal) → JVal

/-- A Python dict with string keys, as an insertion-ordered association list. -/
abbrev PyDict := List (String × JVal)

/-- Python `d[k] = v`: overwrite in place when the key is present, else
append, preserving insertion order. -/
def dictSet (d : PyDict) (k : String) (v : JVal) : PyDict :=
  if d.any (fun p => p.1 = k) then
    d.map (fun p => if p.1 = k then (k, v) else p)
  else d ++ [(k, v)]

/-- Python dict merge of two dicts: entries of the first,
updated/extended by the entries of the second in order. -/
def dictMerge (a b : PyDict) : PyDict :=
  b.foldl (fun d p => dictSet d p.1 p.2) a

/-- The keys of a dict, in insertion order. -/
def dictKeys (d : PyDict) : List String := d.map Prod.fst

/-- Python `d.get(k)`. -/
def dictGet (d : PyDict) (k : String) : Option JVal :=
  (d.find? (fun p => p.1 = k)).map Prod.snd

mutual
/-- `NearEarthObject` from `models.py`: designation, optional name,
diameter, hazardous flag, and the owned collection of close approaches. -/
inductive NearEarthObject where
  | mk : String → Option String → PFloat → Bool → List CloseApproach →
      NearEarthObject

/-- `CloseApproach` from `models.py`: the raw designation reference, the
optional approach time, distance, velocity, and the back reference to the
owning NEO. -/
inductive CloseApproach where
  | mk : String → Option PyDateTime → PFloat → PFloat →
      Option NearEarthObject → CloseApproach
end

def NearEarthObject.designation : NearEarthObject → String
  | NearEarthObject.mk d _ _ _ _ => d

def NearEarthObject.name : NearEarthObject → Option String
  | NearEarthObject.mk _ n _ _ _ => n

def NearEarthObject.diameter : NearEarthObject → PFloat
  | NearEarthObject.mk _ _ d _ _ => d

def NearEarthObject.hazardous : NearEarthObject → Bool
  | NearEarthObject.mk _ _ _ h _ => h

def NearEarthObject.approaches : NearEarthObject → List CloseApproach
  | NearEarthObject.mk _ _ _ _ a => a

def CloseApproach.designationRef : CloseApproach → String
  | CloseApproach.mk d _ _ _ _ => d

def CloseApproach.time : CloseApproach → Option PyDateTime
  | CloseApproach.mk _ t _ _ _ => t

def CloseApproach.distance : CloseApproach → PFloat
  | CloseApproach.mk _ _ d _ _ => d

def CloseApproach.velocity : CloseApproach → PFloat
  | CloseApproach.mk _ _ _ v _ => v

def CloseApproach.neo : CloseApproach → Option NearEarthObject
  | CloseApproach.mk _ _ _ _ n => n

/-- Python truthiness of an `Optional[str]`: `None` and `""` are falsy. -/
def strTruthy : Option String → Bool
  | none => false
  | some s => s ≠ ""

/-- The declared default of the constructor parameter
`diameter: float = float('nan')`. -/
def diameterDefault : StrOrFloat := StrOrFloat.f PFloat.nan

/-- The declared default of the constructor parameters `dist=0.0` and
`v_rel=0.0`. -/
def zeroDefault : StrOrFloat := StrOrFloat.f (PFloat.val 0)

/-- `NearEarthObject.__init__(pha, pdes='', name=None, diameter=float('nan'))`:
store the designation and the name verbatim, convert `diameter` with
`float()` (which can raise), store the hazardous flag, and initialize
`approaches` to the empty list. -/
def NearEarthObject.init (pha : Bool) (pdes : String) (name : Option String)
    (diameter : StrOrFloat) : Except String NearEarthObject :=
  match pyfloat diameter with
  | Except.error e => Except.error e
  | Except.ok d => Except.ok (NearEarthObject.mk pdes name d pha [])

/-- `NearEarthObject.fullname`: the designation, a space, and the name when
the name is truthy, else just the designation. -/
def NearEarthObject.fullname (n : NearEarthObject) : String :=
  match n.name with
  | some s => if s ≠ "" then n.designation ++ " " ++ s else n.designation
  | none => n.designation

/-- Fixed-point decimal rendering of a `PFloat`, as Python format `.Nf`
(rounding half away from the represented value's midpoint is immaterial to
the claims; we round to nearest). -/
def fmtFixed (prec : Nat) : PFloat → String
  | PFloat.nan => "nan"
  | PFloat.inf b => if b then "-inf" else "inf"
  | PFloat.val q =>
      let neg := q < 0
      let scaled : ℚ := |q| * (10 : ℚ) ^ prec
      let n : Nat := (round scaled).toNat
      let ip := n / 10 ^ prec
      let fp := n % 10 ^ prec
      (if neg then "-" else "") ++ toString ip ++
        (if prec = 0 then "" else "." ++ padZeros prec (toString fp))

/-- Python `repr` of a string, without escape handling (no claim depends on
escaping). -/
def pyReprStr (s : String) : String := "'" ++ s ++ "'"

/-- Python `repr` of an `Optional[str]`. -/
def pyReprOptStr : Option String → String
  | none => "None"
  | some s => pyReprStr s

/-- Python `repr` of a bool. -/
def pyReprBool (b : Bool) : String := if b then "True" else "False"

/-- `NearEarthObject.__str__`. -/
def NearEarthObject.pyStr (n : NearEarthObject) : String :=
  let hazardousStr := if n.hazardous then "is" else "is not"
  "NEO " ++ n.fullname ++ " has a diameter of " ++ fmtFixed 3 n.diameter ++
    " km and " ++ hazardousStr ++ " potentially hazardous."

/-- `NearEarthObject.__repr__`. -/
def NearEarthObject.pyRepr (n : NearEarthObject) : String :=
  "NearEarthObject(hazardous=" ++ pyReprBool n.hazardous ++ ", pdes=" ++
    pyReprStr n.designation ++ ", name=" ++ pyReprOptStr n.name ++
    ", diameter=" ++ fmtFixed 3 n.diameter ++ ")"

/-- `NearEarthObject.serialize`: the four-key mapping, with a null name
serialized as null. -/
def NearEarthObject.serialize (n : NearEarthObject) : PyDict :=
  [("designation", JVal.str n.designation),
   ("name", match n.name with
            | some s => JVal.str s
            | none => JVal.null),
   ("diameter_km", JVal.num n.diameter),
   ("potentially_hazardous", JVal.bool n.hazardous)]

/-- Method-call semantics of `fullname`: the returned string together with
the post-state of the receiver. The method body contains no attribute
assignment, so the post-state is the receiver unchanged. -/
def NearEarthObject.fullnameCall (n : NearEarthObject) :
    String × NearEarthObject := (n.fullname, n)

/-- Method-call semantics of `__str__` (result, post-state). -/
def NearEarthObject.pyStrCall (n : NearEarthObject) :
    String × NearEarthObject := (n.pyStr, n)

/-- Method-call semantics of `__repr__` (result, post-state). -/
def NearEarthObject.pyReprCall (n : NearEarthObject) :
    String × NearEarthObject := (n.pyRepr, n)

/-- Method-call semantics of `serialize` (result, post-state). -/
def NearEarthObject.serializeCall (n : NearEarthObject) :
    PyDict × NearEarthObject := (n.serialize, n)

/-- `CloseApproach.__init__(des='', cd=None, dist=0.0, v_rel=0.0)`: store the
designation reference, parse the raw time with `cd_to_datetime` only when
`cd` is truthy (else leave it null), convert distance and velocity with
`float()` (which can raise), and initialize `neo` to null. The raw `cd`
field is a string or JSON null, so an `Option String`. -/
def parseRawTime : Option String → Except String (Option PyDateTime)
  | some s =>
      if s ≠ "" then
        match cd_to_datetime s with
        | Except.ok t => Except.ok (some t)
        | Except.error e => Except.error e
      else Except.ok none
  | none => Except.ok none

def CloseApproach.init (des : String) (cd : Option String)
    (dist : StrOrFloat) (v_rel : StrOrFloat) : Except String CloseApproach :=
  match parseRawTime cd with
  | Except.error e => Except.error e
  | Except.ok time =>
      match pyfloat dist with
      | Except.error e => Except.error e
      | Except.ok d =>
          match pyfloat v_rel with
          | Except.error e => Except.error e
          | Except.ok v => Except.ok (CloseApproach.mk des time d v none)

/-- `CloseApproach.time_str`: the formatted time when set, else the empty
string (a `datetime` object is always truthy in Python). -/
def CloseApproach.timeStr (ca : CloseApproach) : String :=
  match ca.time with
  | some t => datetime_to_str t
  | none => ""

/-- `CloseApproach.serialize(isCsv)`: the three-key base mapping; the NEO's
serialization is computed unconditionally (raising an attribute error when
`neo` is unset), then either merged flat into the base (`isCsv` true) or
nested under the key `neo` (`isCsv` false). -/
def CloseApproach.serialize (ca : CloseApproach) (isCsv : Bool) :
    Except String PyDict :=
  let base : PyDict :=
    [("datetime_utc", JVal.str ca.timeStr),
     ("distance_au", JVal.num ca.distance),
     ("velocity_km_s", JVal.num ca.velocity)]
  match ca.neo with
  | none => Except.error "AttributeError"
  | some n =>
      if isCsv then Except.ok (dictMerge base n.serialize)
      else Except.ok (dictSet base "neo" (JVal.obj n.serialize))

/-- A row of the NEO CSV as seen through `csv.DictReader`: the columns the
parser reads. Absent values are empty strings, as in the data set. -/
structure NeoRow where
  pdes : String
  name : String
  diameter : String
  pha : String
deriving DecidableEq

/-- `load_neos`: for each row, replace an empty diameter by the literal
string `nan`, compare `pha` against `Y` exactly, normalize a falsy name to
null, and construct one `NearEarthObject` per row in input order. An
exception from a constructor propagates. -/
def parseNeoRow (r : NeoRow) : Except String NearEarthObject :=
  NearEarthObject.init (if r.pha = "Y" then true else false) r.pdes
    (if r.name = "" then (none : Option String) else some r.name)
    (StrOrFloat.s (if r.diameter = "" then "nan" else r.diameter))

def load_neos : List NeoRow → Except String (List NearEarthObject)
  | [] => Except.ok []
  | r :: rest =>
      match parseNeoRow r with
      | Except.error e => Except.error e
      | Except.ok neo =>
          match load_neos rest with
          | Except.error e => Except.error e
          | Except.ok others => Except.ok (neo :: others)

/-- `load_approaches`: for each raw positional record (a JSON array of
strings), construct one `CloseApproach` from indices 0 (designation ref),
3 (approach-time string), 4 (distance string) and 7 (velocity string), in
input order. A missing index is a raised `IndexError`. -/
def pyIndex (l : List String) (i : Nat) : Except String String :=
  match l.get? i with
  | some v => Except.ok v
  | none => Except.error "IndexError"

def parseApproachRecord (ca : List String) : Except String CloseApproach :=
  match pyIndex ca 0 with
  | Except.error e => Except.error e
  | Except.ok des =>
      match pyIndex ca 3 with
      | Except.error e => Except.error e
      | Except.ok cd =>
          match pyIndex ca 4 with
          | Except.error e => Except.error e
          | Except.ok dist =>
              match pyIndex ca 7 with
              | Except.error e => Except.error e
              | Except.ok v_rel =>
                  CloseApproach.init des (some cd) (StrOrFloat.s dist)
                    (StrOrFloat.s v_rel)

def load_approaches : List (List String) → Except String (List CloseApproach)
  | [] => Except.ok []
  | ca :: rest =>
      match parseApproachRecord ca with
      | Except.error e => Except.error e
      | Except.ok approach =>
          match load_approaches rest with
          | Except.error e => Except.error e
          | Except.ok others => Except.ok (approach :: others)

/-- Shared sample NEO (Eros, unknown diameter, hazardous). -/
def sampleNeo : NearEarthObject :=
  NearEarthObject.mk "433" (some "Eros") PFloat.nan true []

/-- Shared sample close approach, linked to `sampleNeo`. -/
def sampleApproach : CloseApproach :=
  CloseApproach.mk "433" (some ⟨1900, 1, 1, 12, 0⟩) (PFloat.val 15)
    (PFloat.val 5) (some sampleNeo)

/-- Shared sample orphan approach (no NEO reference). -/
def orphanApproach : CloseApproach :=
  CloseApproach.mk "999999" none (PFloat.val 0) (PFloat.val 0) none

theorem NearEarthObject.init_ok {pha : Bool} {pdes : String} {nm : Option String}
    {d : StrOrFloat} {n : NearEarthObject}
    (h : NearEarthObject.init pha pdes nm d = Except.ok n) :
    ∃ q, pyfloat d = Except.ok q ∧ n = NearEarthObject.mk pdes nm q pha [] := by
  unfold NearEarthObject.init at h
  cases hq : pyfloat d with
  | error e => rw [hq] at h; exact absurd h (by simp)
  | ok q =>
      rw [hq] at h
      simp only [Except.ok.injEq] at h
      exact ⟨q, rfl, h.symm⟩

theorem parseNeoRow_ok {r : NeoRow} {n : NearEarthObject}
    (h : parseNeoRow r = Except.ok n) :
    n.designation = r.pdes ∧
    n.name = (if r.name = "" then none else some r.name) ∧
    (n.hazardous = true ↔ r.pha = "Y") ∧
    n.approaches = [] ∧ n.name ≠ some "" := by
  obtain ⟨q, _, hn⟩ := NearEarthObject.init_ok h
  subst hn
  refine ⟨rfl, rfl, ?_, rfl, ?_⟩
  · by_cases hY : r.pha = "Y" <;> simp [NearEarthObject.hazardous, hY]
  · by_cases hnm : r.name = "" <;> simp [NearEarthObject.name, hnm]

theorem load_neos_spec : ∀ (rows : List NeoRow) (neos : List NearEarthObject),
    load_neos rows = Except.ok neos →
    neos.length = rows.length ∧
    ∀ i (h1 : i < neos.length) (h2 : i < rows.length),
      parseNeoRow (rows.get ⟨i, h2⟩) = Except.ok (neos.get ⟨i, h1⟩)
  | [], neos, h => by
      unfold load_neos at h
      simp only [Except.ok.injEq] at h
      subst h
      exact ⟨rfl, fun i h1 _ => absurd h1 (by simp)⟩
  | r :: rest, neos, h => by
      unfold load_neos at h
      cases hp : parseNeoRow r with
      | error e => rw [hp] at h; exact absurd h (by simp)
      | ok neo =>
          rw [hp] at h
          cases hrest : load_neos rest with
          | error e => rw [hrest] at h; exact absurd h (by simp)
          | ok others =>
              rw [hrest] at h
              simp only [Except.ok.injEq] at h
              subst h
              obtain ⟨hlen, hget⟩ := load_neos_spec rest others hrest
              refine ⟨by simp [hlen], ?_⟩
              intro i h1 h2
              match i with
              | 0 => exact hp
              | Nat.succ j =>
                  exact hget j (by simpa using h1) (by simpa using h2)

theorem pyIndex_ok {l : List String} {i : Nat} {v : String}
    (h : pyIndex l i = Except.ok v) : l.get? i = some v := by
  unfold pyIndex at h
  cases hg : l.get? i with
  | none => rw [hg] at h; exact absurd h (by simp)
  | some w =>
      rw [hg] at h
      simp only [Except.ok.injEq] at h
      rw [h]

theorem parseApproachRecord_ok {ca : List String} {a : CloseApproach}
    (h : parseApproachRecord ca = Except.ok a) :
    ∃ e0 e3 e4 e7,
      ca.get? 0 = some e0 ∧ ca.get? 3 = some e3 ∧ ca.get? 4 = some e4 ∧
      ca.get? 7 = some e7 ∧
      CloseApproach.init e0 (some e3) (StrOrFloat.s e4) (StrOrFloat.s e7) =
        Except.ok a := by
  unfold parseApproachRecord at h
  cases h0 : pyIndex ca 0 with
  | error e => rw [h0] at h; exact absurd h (by simp)
  | ok e0 =>
      rw [h0] at h
      cases h3 : pyIndex ca 3 with
      | error e => rw [h3] at h; exact absurd h (by simp)
      | ok e3 =>
          rw [h3] at h
          cases h4 : pyIndex ca 4 with
          | error e => rw [h4] at h; exact absurd h (by simp)
          | ok e4 =>
              rw [h4] at h
              cases h7 : pyIndex ca 7 with
              | error e => rw [h7] at h; exact absurd h (by simp)
              | ok e7 =>
                  rw [h7] at h
                  exact ⟨e0, e3, e4, e7, pyIndex_ok h0, pyIndex_ok h3,
                    pyIndex_ok h4, pyIndex_ok h7, h⟩

theorem load_approaches_spec :
    ∀ (records : List (List String)) (cas : List CloseApproach),
    load_approaches records = Except.ok cas →
    cas.length = records.length ∧
    ∀ i (h1 : i < cas.length) (h2 : i < records.length),
      parseApproachRecord (records.get ⟨i, h2⟩) = Except.ok (cas.get ⟨i, h1⟩)
  | [], cas, h => by
      unfold load_approaches at h
      simp only [Except.ok.injEq] at h
      subst h
      exact ⟨rfl, fun i h1 _ => absurd h1 (by simp)⟩
  | r :: rest, cas, h => by
      unfold load_approaches at h
      cases hp : parseApproachRecord r with
      | error e => rw [hp] at h; exact absurd h (by simp)
      | ok approach =>
          rw [hp] at h
          cases hrest : load_approaches rest with
          | error e => rw [hrest] at h; exact absurd h (by simp)
          | ok others =>
              rw [hrest] at h
              simp only [Except.ok.injEq] at h
              subst h
              obtain ⟨hlen, hget⟩ := load_approaches_spec rest others hrest
              refine ⟨by simp [hlen], ?_⟩
              intro i h1 h2
              match i with
              | 0 => exact hp
              | Nat.succ j =>
                  exact hget j (by simpa using h1) (by simpa using h2)

/-- C1 counterexample: the constructors do not recover unparseable numeric
strings. `NearEarthObject` construction with the unparseable diameter string
`big` raises a `ValueError` instead of yielding NaN, and `CloseApproach`
construction with the unparseable distance string `fast` (resp. velocity
string `quick`) raises instead of yielding 0.0. -/
theorem unparseableNumericRaises :
    NearEarthObject.init false "433" none (StrOrFloat.s "big") =
      Except.error "ValueError" ∧
    CloseApproach.init "433" none (StrOrFloat.s "fast") zeroDefault =
      Except.error "ValueError" ∧
    CloseApproach.init "433" none zeroDefault (StrOrFloat.s "quick") =
      Except.error "ValueError" :=
  ⟨rfl, rfl, rfl⟩

/-- C1 (amended): the default (absent) diameter and the unknown-marker string
`nan` yield diameter NaN without raising, and absent distance/velocity
default to 0.0 without raising; but a string that `float()` cannot parse
makes the corresponding constructor raise a `ValueError`, which is
propagated, for the diameter as well as for distance/velocity. -/
theorem malformedNumericRecoveryAmended :
    (∀ pha pdes nm, NearEarthObject.init pha pdes nm diameterDefault =
      Except.ok (NearEarthObject.mk pdes nm PFloat.nan pha [])) ∧
    (∀ pha pdes nm, NearEarthObject.init pha pdes nm (StrOrFloat.s "nan") =
      Except.ok (NearEarthObject.mk pdes nm PFloat.nan pha [])) ∧
    (∀ des, CloseApproach.init des none zeroDefault zeroDefault =
      Except.ok (CloseApproach.mk des none (PFloat.val 0) (PFloat.val 0)
        none)) ∧
    (∀ pha pdes nm s, pyFloatOfString s = none →
      NearEarthObject.init pha pdes nm (StrOrFloat.s s) =
        Except.error "ValueError") ∧
    (∀ des cd t v s, parseRawTime cd = Except.ok t → pyFloatOfString s = none →
      CloseApproach.init des cd (StrOrFloat.s s) v =
        Except.error "ValueError") := by
  refine ⟨fun pha pdes nm => rfl, fun pha pdes nm => rfl, fun des => rfl,
    ?_, ?_⟩
  · intro pha pdes nm s hs
    simp [NearEarthObject.init, pyfloat, hs]
  · intro des cd t v s ht hs
    simp [CloseApproach.init, ht, pyfloat, hs]

/-- C1 witness: the amended claim applied at the unparseable string `big`,
once as a diameter and once as a distance. -/
theorem malformedNumericRecoveryWitness :
    pyFloatOfString "big" = none ∧
    NearEarthObject.init false "433" none (StrOrFloat.s "big") =
      Except.error "ValueError" ∧
    parseRawTime (some "1900-01-01 12:00") =
      Except.ok (some ⟨1900, 1, 1, 12, 0⟩) ∧
    CloseApproach.init "433" (some "1900-01-01 12:00") (StrOrFloat.s "big")
      zeroDefault = Except.error "ValueError" :=
  ⟨rfl, malformedNumericRecoveryAmended.2.2.2.1 false "433" none "big" rfl,
   rfl, malformedNumericRecoveryAmended.2.2.2.2 "433" (some "1900-01-01 12:00")
     (some ⟨1900, 1, 1, 12, 0⟩) zeroDefault "big" rfl rfl⟩

/-- C2 counterexample: `load_neos` accepts a row with a blank designation and
produces a `NearEarthObject` whose designation is the empty string. -/
theorem blankDesignationAccepted :
    load_neos [⟨"", "", "", ""⟩] =
      Except.ok [NearEarthObject.mk "" none PFloat.nan false []] ∧
    (NearEarthObject.mk "" none PFloat.nan false []).designation = "" :=
  ⟨rfl, rfl⟩

/-- C2 (amended): `load_neos` performs no designation validation: every
source row yields exactly one NEO, in order, whose designation is the row's
`pdes` field verbatim — including the empty string for a blank row. -/
theorem loadNeosNoDesignationValidation (rows : List NeoRow)
    (neos : List NearEarthObject) (h : load_neos rows = Except.ok neos) :
    neos.length = rows.length ∧
    ∀ i (h1 : i < neos.length) (h2 : i < rows.length),
      (neos.get ⟨i, h1⟩).designation = (rows.get ⟨i, h2⟩).pdes := by
  obtain ⟨hlen, hget⟩ := load_neos_spec rows neos h
  exact ⟨hlen, fun i h1 h2 => (parseNeoRow_ok (hget i h1 h2)).1⟩

/-- C2 witness: the amended claim applied to a one-row input with a blank
designation. -/
theorem loadNeosNoDesignationValidationWitness :
    ([NearEarthObject.mk "" none PFloat.nan false []].get
        ⟨0, by decide⟩).designation =
      ([(⟨"", "", "", ""⟩ : NeoRow)].get ⟨0, by decide⟩).pdes :=
  (loadNeosNoDesignationValidation [⟨"", "", "", ""⟩]
    [NearEarthObject.mk "" none PFloat.nan false []] rfl).2 0 (by decide)
    (by decide)

/-- C3 counterexample: a truthy but malformed raw timestamp is handed to the
external datetime parser, whose failure propagates — `CloseApproach`
construction raises on the timestamp field `garbage`. -/
theorem truthyMalformedTimestampRaises :
    CloseApproach.init "433" (some "garbage") zeroDefault zeroDefault =
      Except.error "ValueError" := rfl

/-- C3 (amended): when the raw timestamp field is empty or absent the
external parser is not invoked and the time is null, without raising; but a
truthy timestamp is passed to the external parser, whose failure on a
malformed value propagates out of the construction. -/
theorem timestampFalsyNullAmended :
    (∀ des d v dq vq, pyfloat d = Except.ok dq → pyfloat v = Except.ok vq →
      CloseApproach.init des none d v =
        Except.ok (CloseApproach.mk des none dq vq none) ∧
      CloseApproach.init des (some "") d v =
        Except.ok (CloseApproach.mk des none dq vq none)) ∧
    (∀ des d v s e, s ≠ "" → cd_to_datetime s = Except.error e →
      CloseApproach.init des (some s) d v = Except.error e) := by
  constructor
  · intro des d v dq vq hd hv
    constructor <;> simp [CloseApproach.init, parseRawTime, hd, hv]
  · intro des d v s e hs he
    simp [CloseApproach.init, parseRawTime, hs, he]

/-- C3 witness: the amended claim applied at an absent timestamp and at the
malformed timestamp `garbage`. -/
theorem timestampFalsyNullWitness :
    CloseApproach.init "433" none zeroDefault zeroDefault =
      Except.ok (CloseApproach.mk "433" none (PFloat.val 0) (PFloat.val 0)
        none) ∧
    cd_to_datetime "garbage" = Except.error "ValueError" ∧
    CloseApproach.init "433" (some "garbage") zeroDefault zeroDefault =
      Except.error "ValueError" :=
  ⟨(timestampFalsyNullAmended.1 "433" zeroDefault zeroDefault
      (PFloat.val 0) (PFloat.val 0) rfl rfl).1,
   rfl, timestampFalsyNullAmended.2 "433" zeroDefault zeroDefault "garbage"
     "ValueError" (by decide) rfl⟩

/-- C4: for every `CloseApproach` with its NEO reference set,
`serialize(true)` returns a mapping whose keys are exactly the approach's
three keys followed by the NEO's four keys with no `neo` key, and
`serialize(false)` returns the approach's three keys plus a `neo` key
holding the NEO's serialized mapping; when the NEO reference is unset,
`serialize` fails either way. -/
theorem closeApproachSerializeShape (ca : CloseApproach) :
    (∀ n, ca.neo = some n →
      (∃ d, ca.serialize true = Except.ok d ∧
        dictKeys d = ["datetime_utc", "distance_au", "velocity_km_s",
          "designation", "name", "diameter_km", "potentially_hazardous"] ∧
        dictGet d "neo" = none) ∧
      (∃ d, ca.serialize false = Except.ok d ∧
        dictKeys d = ["datetime_utc", "distance_au", "velocity_km_s",
          "neo"] ∧
        dictGet d "neo" = some (JVal.obj n.serialize))) ∧
    (ca.neo = none →
      ca.serialize true = Except.error "AttributeError" ∧
      ca.serialize false = Except.error "AttributeError") := by
  obtain ⟨des, t, dq, vq, neo⟩ := ca
  cases neo with
  | none =>
      refine ⟨?_, fun _ => ⟨rfl, rfl⟩⟩
      intro n hn
      exact absurd hn (by simp [CloseApproach.neo])
  | some m =>
      refine ⟨?_, ?_⟩
      · intro n hn
        have hm : m = n := by simpa [CloseApproach.neo] using hn
        subst hm
        exact ⟨⟨_, rfl, rfl, rfl⟩, ⟨_, rfl, rfl, rfl⟩⟩
      · intro hn
        exact absurd hn (by simp [CloseApproach.neo])

/-- C4 witness: the claim applied to a linked sample approach and to an
orphan approach. -/
theorem closeApproachSerializeShapeWitness :
    sampleApproach.neo = some sampleNeo ∧
    (∃ d, sampleApproach.serialize true = Except.ok d ∧
      dictKeys d = ["datetime_utc", "distance_au", "velocity_km_s",
        "designation", "name", "diameter_km", "potentially_hazardous"] ∧
      dictGet d "neo" = none) ∧
    (∃ d, sampleApproach.serialize false = Except.ok d ∧
      dictKeys d = ["datetime_utc", "distance_au", "velocity_km_s", "neo"] ∧
      dictGet d "neo" = some (JVal.obj sampleNeo.serialize)) ∧
    orphanApproach.neo = none ∧
    orphanApproach.serialize true = Except.error "AttributeError" ∧
    orphanApproach.serialize false = Except.error "AttributeError" :=
  ⟨rfl, ((closeApproachSerializeShape sampleApproach).1 sampleNeo rfl).1,
   ((closeApproachSerializeShape sampleApproach).1 sampleNeo rfl).2,
   rfl, ((closeApproachSerializeShape orphanApproach).2 rfl).1,
   ((closeApproachSerializeShape orphanApproach).2 rfl).2⟩

/-- C5 counterexample: the `NearEarthObject` constructor does not normalize a
falsy name — constructing with the empty-string name stores it verbatim, so
the constructed object's name is the empty string, not null. -/
theorem constructorKeepsEmptyName :
    NearEarthObject.init true "433" (some "") diameterDefault =
      Except.ok (NearEarthObject.mk "433" (some "") PFloat.nan true []) ∧
    (NearEarthObject.mk "433" (some "") PFloat.nan true []).name = some "" ∧
    some "" ≠ (none : Option String) :=
  ⟨rfl, rfl, by simp⟩

/-- C5 (amended): the falsy-name normalization lives in the NEO parser, not
in the constructor: `load_neos` maps an empty source name to null, so a
parsed NEO's name is never the empty string; the constructor itself stores
whatever name it is given, verbatim. -/
theorem nameNormalizedInParser (rows : List NeoRow)
    (neos : List NearEarthObject) (h : load_neos rows = Except.ok neos) :
    (∀ i (h1 : i < neos.length) (h2 : i < rows.length),
      (neos.get ⟨i, h1⟩).name =
        (if (rows.get ⟨i, h2⟩).name = "" then none
         else some (rows.get ⟨i, h2⟩).name)) ∧
    (∀ i (h1 : i < neos.length), (neos.get ⟨i, h1⟩).name ≠ some "") ∧
    (∀ pha pdes nm d res,
      NearEarthObject.init pha pdes nm d = Except.ok res → res.name = nm) := by
  obtain ⟨hlen, hget⟩ := load_neos_spec rows neos h
  refine ⟨fun i h1 h2 => (parseNeoRow_ok (hget i h1 h2)).2.1,
    fun i h1 => (parseNeoRow_ok (hget i h1 (hlen ▸ h1))).2.2.2.2,
    fun pha pdes nm d res hres => ?_⟩
  obtain ⟨q, _, hr⟩ := NearEarthObject.init_ok hres
  subst hr
  rfl

/-- C5 witness: the amended claim applied to a one-row input with an empty
source name. -/
theorem nameNormalizedInParserWitness :
    load_neos [⟨"433", "", "16", "Y"⟩] =
      Except.ok [NearEarthObject.mk "433" none (PFloat.val 16) true []] ∧
    ([NearEarthObject.mk "433" none (PFloat.val 16) true []].get
      ⟨0, by decide⟩).name ≠ some "" :=
  ⟨rfl, (nameNormalizedInParser [⟨"433", "", "16", "Y"⟩]
    [NearEarthObject.mk "433" none (PFloat.val 16) true []] rfl).2.1 0
    (by decide)⟩

/-- C6 counterexample: for an NEO whose name is the non-null empty string,
`fullname` is just the designation, not the designation-space-name string
the claim's iff requires. -/
theorem fullnameEmptyNameCounterexample :
    (NearEarthObject.mk "433" (some "") PFloat.nan false []).fullname =
      "433" ∧
    (NearEarthObject.mk "433" (some "") PFloat.nan false []).name =
      some "" ∧
    ("433" : String) ≠ "433" ++ " " ++ "" :=
  ⟨rfl, rfl, by decide⟩

/-- C6 (amended): `fullname` equals the designation, a space, and the name
exactly when the name is truthy (non-null and nonempty); when the name is
falsy (null or empty) it equals the designation alone; and the method is
pure — its post-state is the receiver unchanged. -/
theorem fullnameTruthyAmended (n : NearEarthObject) :
    (∀ s, n.name = some s → s ≠ "" →
      n.fullname = n.designation ++ " " ++ s) ∧
    (strTruthy n.name = false → n.fullname = n.designation) ∧
    n.fullnameCall = (n.fullname, n) := by
  obtain ⟨pdes, nm, diam, haz, app⟩ := n
  refine ⟨?_, ?_, rfl⟩
  · intro s hs hne
    have hnm : nm = some s := by simpa [NearEarthObject.name] using hs
    subst hnm
    simp [NearEarthObject.fullname, NearEarthObject.name,
      NearEarthObject.designation, hne]
  · intro hf
    cases nm with
    | none => rfl
    | some s =>
        have hs : s = "" := by
          by_contra hne
          simp [strTruthy, NearEarthObject.name, hne] at hf
        subst hs
        rfl

/-- C6 witness: the amended claim applied at a truthy name and at a null
name. -/
theorem fullnameTruthyWitness :
    sampleNeo.name = some "Eros" ∧ ("Eros" : String) ≠ "" ∧
    sampleNeo.fullname = sampleNeo.designation ++ " " ++ "Eros" ∧
    strTruthy (NearEarthObject.mk "1" none PFloat.nan false []).name =
      false ∧
    (NearEarthObject.mk "1" none PFloat.nan false []).fullname =
      (NearEarthObject.mk "1" none PFloat.nan false []).designation :=
  ⟨rfl, by decide, (fullnameTruthyAmended sampleNeo).1 "Eros" rfl (by decide),
   rfl, (fullnameTruthyAmended (NearEarthObject.mk "1" none PFloat.nan
     false [])).2.1 rfl⟩

/-- C7: for every source NEO row, the parsed NEO's hazardous flag is true
exactly when the row's `pha` field is the single character `Y`, compared
exactly and case-sensitively; any other value, lowercase `y` and the empty
string included, yields false. -/
theorem hazardousIffPhaY (rows : List NeoRow) (neos : List NearEarthObject)
    (h : load_neos rows = Except.ok neos) :
    neos.length = rows.length ∧
    ∀ i (h1 : i < neos.length) (h2 : i < rows.length),
      ((neos.get ⟨i, h1⟩).hazardous = true ↔ (rows.get ⟨i, h2⟩).pha = "Y") := by
  obtain ⟨hlen, hget⟩ := load_neos_spec rows neos h
  exact ⟨hlen, fun i h1 h2 => (parseNeoRow_ok (hget i h1 h2)).2.2.1⟩

/-- C7 witness: the claim applied to rows with `pha` equal to `Y`, `y` and
empty. -/
theorem hazardousIffPhaYWitness :
    load_neos [⟨"433", "", "", "Y"⟩, ⟨"1", "", "", "y"⟩, ⟨"2", "", "", ""⟩] =
      Except.ok [NearEarthObject.mk "433" none PFloat.nan true [],
        NearEarthObject.mk "1" none PFloat.nan false [],
        NearEarthObject.mk "2" none PFloat.nan false []] ∧
    (([NearEarthObject.mk "433" none PFloat.nan true [],
        NearEarthObject.mk "1" none PFloat.nan false [],
        NearEarthObject.mk "2" none PFloat.nan false []].get
          ⟨1, by decide⟩).hazardous = true ↔
      ([(⟨"433", "", "", "Y"⟩ : NeoRow), ⟨"1", "", "", "y"⟩,
        ⟨"2", "", "", ""⟩].get ⟨1, by decide⟩).pha = "Y") :=
  ⟨rfl, (hazardousIffPhaY [⟨"433", "", "", "Y"⟩, ⟨"1", "", "", "y"⟩,
    ⟨"2", "", "", ""⟩] [NearEarthObject.mk "433" none PFloat.nan true [],
    NearEarthObject.mk "1" none PFloat.nan false [],
    NearEarthObject.mk "2" none PFloat.nan false []] rfl).2 1 (by decide)
    (by decide)⟩

/-- C8: for every raw positional close-approach record, the approach parser
constructs exactly one `CloseApproach`, reading exactly index 0 as the
designation reference, index 3 as the approach-time string, index 4 as the
distance string and index 7 as the velocity string, and the output order
equals the input record order. -/
theorem approachPositionalContract (records : List (List String))
    (cas : List CloseApproach) (h : load_approaches records = Except.ok cas) :
    cas.length = records.length ∧
    ∀ i (h1 : i < cas.length) (h2 : i < records.length),
      ∃ e0 e3 e4 e7,
        (records.get ⟨i, h2⟩).get? 0 = some e0 ∧
        (records.get ⟨i, h2⟩).get? 3 = some e3 ∧
        (records.get ⟨i, h2⟩).get? 4 = some e4 ∧
        (records.get ⟨i, h2⟩).get? 7 = some e7 ∧
        CloseApproach.init e0 (some e3) (StrOrFloat.s e4) (StrOrFloat.s e7) =
          Except.ok (cas.get ⟨i, h1⟩) := by
  obtain ⟨hlen, hget⟩ := load_approaches_spec records cas h
  exact ⟨hlen, fun i h1 h2 => parseApproachRecord_ok (hget i h1 h2)⟩

/-- C8 witness: the claim applied to a single eight-field record. -/
theorem approachPositionalContractWitness :
    load_approaches [["433", "a", "b", "1900-01-01 12:00", "15", "c", "d",
        "5"]] =
      Except.ok [CloseApproach.mk "433" (some ⟨1900, 1, 1, 12, 0⟩)
        (PFloat.val 15) (PFloat.val 5) none] ∧
    (∃ e0 e3 e4 e7,
      ([["433", "a", "b", "1900-01-01 12:00", "15", "c", "d", "5"]].get
          ⟨0, by decide⟩).get? 0 = some e0 ∧
      ([["433", "a", "b", "1900-01-01 12:00", "15", "c", "d", "5"]].get
          ⟨0, by decide⟩).get? 3 = some e3 ∧
      ([["433", "a", "b", "1900-01-01 12:00", "15", "c", "d", "5"]].get
          ⟨0, by decide⟩).get? 4 = some e4 ∧
      ([["433", "a", "b", "1900-01-01 12:00", "15", "c", "d", "5"]].get
          ⟨0, by decide⟩).get? 7 = some e7 ∧
      CloseApproach.init e0 (some e3) (StrOrFloat.s e4) (StrOrFloat.s e7) =
        Except.ok ([CloseApproach.mk "433" (some ⟨1900, 1, 1, 12, 0⟩)
          (PFloat.val 15) (PFloat.val 5) none].get ⟨0, by decide⟩)) :=
  ⟨rfl, (approachPositionalContract
    [["433", "a", "b", "1900-01-01 12:00", "15", "c", "d", "5"]]
    [CloseApproach.mk "433" (some ⟨1900, 1, 1, 12, 0⟩) (PFloat.val 15)
      (PFloat.val 5) none] rfl).2 0 (by decide) (by decide)⟩

/-- C9: the designation is immutable after construction: the constructor
sets it from `pdes`, and each entity-model operation — `fullname`, the
string rendering, `repr` and `serialize` — leaves the receiver's designation
unchanged (their method bodies contain no attribute assignment), with
`serialize` reporting the constructor-set value. -/
theorem designationImmutable (n : NearEarthObject) :
    (∀ pha pdes nm d res,
      NearEarthObject.init pha pdes nm d = Except.ok res →
      res.designation = pdes) ∧
    (n.fullnameCall.2).designation = n.designation ∧
    (n.pyStrCall.2).designation = n.designation ∧
    (n.pyReprCall.2).designation = n.designation ∧
    (n.serializeCall.2).designation = n.designation ∧
    dictGet n.serialize "designation" = some (JVal.str n.designation) := by
  refine ⟨?_, rfl, rfl, rfl, rfl, rfl⟩
  intro pha pdes nm d res hres
  obtain ⟨q, _, hr⟩ := NearEarthObject.init_ok hres
  subst hr
  rfl

/-- C9 witness: the claim applied to a freshly constructed sample NEO. -/
theorem designationImmutableWitness :
    NearEarthObject.init true "433" (some "Eros") diameterDefault =
      Except.ok sampleNeo ∧
    sampleNeo.designation = "433" ∧
    (sampleNeo.serializeCall.2).designation = sampleNeo.designation :=
  ⟨rfl, (designationImmutable sampleNeo).1 true "433" (some "Eros")
    diameterDefault sampleNeo rfl, (designationImmutable sampleNeo).2.2.2.2.1⟩

/-- C10: for every NEO with unknown (NaN) diameter, `serialize` carries the
NaN value through unchanged under the `diameter_km` key — present, not
null, not omitted — and serialization is a total operation. -/
theorem serializeNanDiameter (n : NearEarthObject)
    (h : n.diameter = PFloat.nan) :
    dictGet n.serialize "diameter_km" = some (JVal.num PFloat.nan) ∧
    "diameter_km" ∈ dictKeys n.serialize ∧
    dictGet n.serialize "diameter_km" ≠ some JVal.null ∧
    dictGet n.serialize "diameter_km" ≠ none := by
  have hg : dictGet n.serialize "diameter_km" = some (JVal.num n.diameter) :=
    rfl
  rw [h] at hg
  refine ⟨hg, ?_, ?_, ?_⟩
  · simp [dictKeys, NearEarthObject.serialize]
  · rw [hg]
    simp
  · rw [hg]
    simp

/-- C10 witness: the claim applied to the sample NEO, whose diameter is
NaN. -/
theorem serializeNanDiameterWitness :
    sampleNeo.diameter = PFloat.nan ∧
    dictGet sampleNeo.serialize "diameter_km" =
      some (JVal.num PFloat.nan) :=
  ⟨rfl, (serializeNanDiameter sampleNeo rfl).1⟩
